import Mathlib

/-!
Shallow embedding of the session/process orchestration core of the
Fluttery repository (`server/src/services/sessionManager.ts` and
`server/src/agents/MasterOrchestratorAgent.ts`), with proofs of the
specified properties.

Conventions of the embedding:
* the JS `Map<string, FlutterSession>` becomes an association list
  `List (Nat × FlutterSession)`; `mapGet` / `mapSet` / `mapDelete` mirror
  `Map.get` / `Map.set` / `Map.delete` (`set` overwrites an existing key in
  place, otherwise appends in insertion order);
* the JS `Set<number>` of used ports becomes a `List Nat` without
  duplicates; `portAdd` / `portDelete` mirror `Set.add` / `Set.delete`;
* session ids are natural numbers; `uuidv4()` is modelled by the ghost
  counter `nextId`, which stands for the generator's freshness guarantee;
* dates are milliseconds since the epoch (`Nat`); `a.getTime() - b.getTime()`
  on ordered dates is truncated subtraction;
* filesystem contents and AI responses are outside the state model; their
  success or failure enters `createSession` / `updateSessionCode` as
  explicit parameters, and a JS `throw` is `Except.error`;
* the `previewUrl` field (`http://localhost:PORT`) is derived from `port`
  and is omitted from the record.
-/

deriving instance DecidableEq for Except

/-- Status field of a `FlutterSession` (`sessionManager.ts`, line 19). -/
inductive SessionStatus where
  | initializing
  | ready
  | error
  | terminated
deriving DecidableEq, Repr

/-- One session record (`FlutterSession` in `sessionManager.ts`).
`hasProcess` records whether the optional `flutterProcess` field is set. -/
structure FlutterSession where
  id : Nat
  port : Nat
  hasProcess : Bool
  createdAt : Nat
  lastActive : Nat
  status : SessionStatus
deriving DecidableEq, Repr

/-- `basePort = 8080` in `SessionManager`. -/
def basePort : Nat := 8080

/-- `maxSessions = 50` in `SessionManager`. -/
def maxSessions : Nat := 50

/-- The inactivity threshold of the cleanup timer: `60 * 60 * 1000` ms. -/
def inactiveThresholdMs : Nat := 60 * 60 * 1000

/-- The startup timeout of `startFlutterServer`: `120000` ms. -/
def startupTimeoutMs : Nat := 120000

/-- `Map.get`: the first entry with the given key, if any. -/
def mapGet (m : List (Nat × FlutterSession)) (k : Nat) : Option FlutterSession :=
  (m.find? (fun e => e.1 == k)).map (fun e => e.2)

/-- `Map.set`: overwrite an existing key in place, otherwise append. -/
def mapSet (m : List (Nat × FlutterSession)) (k : Nat) (v : FlutterSession) :
    List (Nat × FlutterSession) :=
  if m.any (fun e => e.1 == k) then
    m.map (fun e => if e.1 == k then (k, v) else e)
  else
    m ++ [(k, v)]

/-- `Map.delete`: drop the entry with the given key. -/
def mapDelete (m : List (Nat × FlutterSession)) (k : Nat) :
    List (Nat × FlutterSession) :=
  m.filter (fun e => e.1 != k)

/-- `Set.add` on the used-port set. -/
def portAdd (used : List Nat) (p : Nat) : List Nat :=
  if used.contains p then used else p :: used

/-- `Set.delete` on the used-port set. -/
def portDelete (used : List Nat) (p : Nat) : List Nat :=
  used.filter (fun q => q != p)

/-- The mutable state of the `SessionManager` singleton: the `sessions`
map and the `usedPorts` set, plus the ghost uuid counter `nextId`. -/
structure SMState where
  sessions : List (Nat × FlutterSession)
  usedPorts : List Nat
  nextId : Nat
deriving DecidableEq, Repr

/-- The state of a freshly constructed `SessionManager`. -/
def initState : SMState := ⟨[], [], 0⟩

/-- The `for` loop of `getNextAvailablePort`: starting at `port`, scan the
next `n` ports for one outside `used`. -/
def portScan (used : List Nat) : Nat → Nat → Option Nat
  | _, 0 => none
  | port, n + 1 =>
    if used.contains port then portScan used (port + 1) n else some port

/-- `getNextAvailablePort` (`sessionManager.ts`, lines 47-54): the first
free port in `[basePort, basePort + 1000)`; `none` models the
`No available ports` throw. -/
def getNextAvailablePort (used : List Nat) : Option Nat :=
  portScan used basePort 1000

/-- Signals sent to a child process. -/
inductive Sig where
  | sigterm
  | sigkill
deriving DecidableEq, Repr

/-- What the spawned `flutter run` child does before the readiness check
settles: it prints the readiness marker (`is being served at ...`) at some
time, emits an `error` event at some time, or does neither. -/
inductive StartEvent where
  | markerAt (tMs : Nat)
  | errorAt (tMs : Nat)
  | silence
deriving DecidableEq, Repr

/-- Startup failures of `startFlutterServer`. -/
inductive StartErr where
  | timeout
  | procError
deriving DecidableEq, Repr

/-- The readiness wait of `startFlutterServer` (lines 167-214): resolve if
the readiness marker is printed before the 120000 ms timer fires, reject
with the timeout error otherwise; an `error` event before the timer also
rejects. -/
def startFlutterServer : StartEvent → Except StartErr Unit
  | .markerAt t => if t < startupTimeoutMs then .ok () else .error .timeout
  | .errorAt t => if t < startupTimeoutMs then .error .procError else .error .timeout
  | .silence => .error .timeout

/-- Errors thrown by `createSession`. -/
inductive CreateError where
  | capacityExceeded
  | portsExhausted
  | initError
  | startError
deriving DecidableEq, Repr

/-- `terminateSession` (lines 296-328): a no-op on an unknown id;
otherwise kill the process (if any), remove the project directory, free
the port and delete the record.  The returned list holds the signals sent
synchronously (the `SIGTERM`); the deferred 5 s force-kill timer is
modelled separately by `stopProcess`. -/
def terminateSession (st : SMState) (sessionId : Nat) : SMState × List Sig :=
  match mapGet st.sessions sessionId with
  | none => (st, [])
  | some s =>
    ({ st with
        sessions := mapDelete st.sessions sessionId,
        usedPorts := portDelete st.usedPorts s.port },
      if s.hasProcess then [Sig.sigterm] else [])

/-- `createSession` (lines 57-100).  `now` is the current time, `initOk`
is whether `initializeFlutterProject` (the `flutter create` call) succeeds,
and `ev` drives the readiness wait of `startFlutterServer`.  Returns the
result (`Except.error` models the throw), the post state, and the signals
sent during the call (by the rollback's `terminateSession`, if taken). -/
def createSession (st : SMState) (now : Nat) (initOk : Bool) (ev : StartEvent) :
    Except CreateError FlutterSession × SMState × List Sig :=
  if st.sessions.length ≥ maxSessions then
    (.error .capacityExceeded, st, [])
  else
    match getNextAvailablePort st.usedPorts with
    | none => (.error .portsExhausted, st, [])
    | some port =>
      let sessionId := st.nextId
      let sess : FlutterSession :=
        { id := sessionId, port := port, hasProcess := false,
          createdAt := now, lastActive := now, status := .initializing }
      let st1 : SMState :=
        { sessions := mapSet st.sessions sessionId sess,
          usedPorts := portAdd st.usedPorts port,
          nextId := st.nextId + 1 }
      if initOk then
        -- startFlutterServer first spawns the process (setting
        -- `session.flutterProcess`), then waits for the readiness marker
        let sessSpawned := { sess with hasProcess := true }
        let st2 := { st1 with sessions := mapSet st1.sessions sessionId sessSpawned }
        match startFlutterServer ev with
        | .ok _ =>
          let sessReady := { sessSpawned with status := SessionStatus.ready }
          (.ok sessReady,
            { st2 with sessions := mapSet st2.sessions sessionId sessReady }, [])
        | .error _ =>
          let sessErr := { sessSpawned with status := SessionStatus.error }
          let st3 := { st2 with sessions := mapSet st2.sessions sessionId sessErr }
          let t := terminateSession st3 sessionId
          (.error .startError, t.1, t.2)
      else
        let sessErr := { sess with status := SessionStatus.error }
        let st3 := { st1 with sessions := mapSet st1.sessions sessionId sessErr }
        let t := terminateSession st3 sessionId
        (.error .initError, t.1, t.2)

/-- `getSession` (lines 284-290): look the session up and, when found,
bump its `lastActive` timestamp to the current time. -/
def getSession (st : SMState) (sessionId : Nat) (now : Nat) :
    Option FlutterSession × SMState :=
  match mapGet st.sessions sessionId with
  | none => (none, st)
  | some s =>
    let s' := { s with lastActive := now }
    (some s', { st with sessions := mapSet st.sessions sessionId s' })

/-- One generated file of an AI response. -/
structure GeneratedFile where
  path : String
  content : String
deriving DecidableEq, Repr

/-- The part of `aiService.generateFlutterCode`'s response that
`updateSessionCode` consumes. -/
structure AiResult where
  code : String
  files : List GeneratedFile
  deps : List String
deriving DecidableEq, Repr

/-- Errors thrown by `updateSessionCode`: the not-found throw, a failed
AI call, and `hotReload`'s throw when the session has no live process. -/
inductive UpdateError where
  | notFound
  | aiError
  | noProcess
deriving DecidableEq, Repr

/-- `updateSessionCode` (lines 216-271): throw if the id is unknown;
otherwise bump `lastActive` first, then run the AI step (`ai` is its
outcome), write the resulting files (filesystem, outside the state
model) and trigger `hotReload`, which throws when the session has no
live Flutter process.  No status check is performed anywhere. -/
def updateSessionCode (st : SMState) (sessionId : Nat) (now : Nat)
    (ai : Except Unit AiResult) :
    Except UpdateError (List GeneratedFile) × SMState :=
  match mapGet st.sessions sessionId with
  | none => (.error .notFound, st)
  | some s =>
    let s1 := { s with lastActive := now }
    let st1 := { st with sessions := mapSet st.sessions sessionId s1 }
    match ai with
    | .error _ => (.error .aiError, st1)
    | .ok r =>
      if s1.hasProcess then (.ok r.files, st1)
      else (.error .noProcess, st1)

/-- One pass of the interval body of `startCleanupTimer` (lines 330-343):
terminate every session whose `lastActive` is more than
`inactiveThresholdMs` before `now`. -/
def cleanupSweep (st : SMState) (now : Nat) : SMState :=
  ((st.sessions.filter
      (fun e => decide (now - e.2.lastActive > inactiveThresholdMs))).map
        (fun e => e.1)).foldl
    (fun acc sessionId => (terminateSession acc sessionId).1) st

/-- The operations of the session lifecycle whose interleavings the port
exclusivity property quantifies over. -/
inductive SMOp where
  | create (now : Nat) (initOk : Bool) (ev : StartEvent)
  | terminate (sessionId : Nat)
deriving DecidableEq, Repr

/-- Apply one operation to the manager state. -/
def applyOp (st : SMState) : SMOp → SMState
  | .create now initOk ev => (createSession st now initOk ev).2.1
  | .terminate sessionId => (terminateSession st sessionId).1

/-- Run a sequence of operations from the freshly constructed manager. -/
def run (ops : List SMOp) : SMState :=
  ops.foldl applyOp initState

/-- The ports held by live sessions, in registry order. -/
def livePorts (st : SMState) : List Nat :=
  st.sessions.map (fun e => e.2.port)

/-- The session-manager state invariant: session keys are distinct, every
live session's port is registered in `usedPorts`, live ports are pairwise
distinct, `usedPorts` is a set, and every key is below the uuid ghost
counter. -/
def SMInv (st : SMState) : Prop :=
  (st.sessions.map (fun e => e.1)).Nodup ∧
  (∀ e ∈ st.sessions, e.2.port ∈ st.usedPorts) ∧
  (livePorts st).Nodup ∧
  st.usedPorts.Nodup ∧
  (∀ e ∈ st.sessions, e.1 < st.nextId)

instance (st : SMState) : Decidable (SMInv st) := by
  unfold SMInv
  infer_instance

/-- Status field of a `ReWOOPlan` (`MasterOrchestratorAgent.ts`, line 13). -/
inductive PlanStatus where
  | pending
  | inProgress
  | completed
  | failed
deriving DecidableEq, Repr

/-- One task of the orchestrator (`ReWOOPlan` in
`MasterOrchestratorAgent.ts`); the opaque `result` payload is a string. -/
structure ReWOOPlan where
  id : String
  type : String
  agentId : String
  dependencies : List String
  status : PlanStatus
  result : Option String
  error : Option String
deriving DecidableEq, Repr

/-- The part of `AgentResult` (`shared/BaseAgent.ts`) that the
orchestrator's execution loop consumes. -/
structure AgentResult where
  success : Bool
  data : Option String
  error : Option String
deriving DecidableEq, Repr

/-- The recursive `addPlan` helper of `sortPlansByDependencies` (lines
342-366), made total with an explicit recursion-depth budget `fuel`: the
source recursion has no cycle detection, and `none` means the budget was
exhausted (the source call would still be recursing).  The accumulator is
the pair of the `sorted` list and the `processed` id list. -/
def addPlan (plans : List ReWOOPlan) :
    Nat → ReWOOPlan → List ReWOOPlan × List String →
    Option (List ReWOOPlan × List String)
  | 0, _, _ => none
  | fuel + 1, plan, acc =>
    if acc.2.contains plan.id then some acc
    else
      match plan.dependencies.foldlM
          (fun a depId =>
            match plans.find? (fun p => p.id == depId) with
            | some depPlan =>
              if !a.2.contains depId then addPlan plans fuel depPlan a else some a
            | none => some a) acc with
      | some a => some (a.1 ++ [plan], a.2 ++ [plan.id])
      | none => none

/-- `sortPlansByDependencies` (lines 342-366) with a recursion budget:
`addPlan` every plan in order into the accumulator. -/
def sortPlansByDependencies (fuel : Nat) (plans : List ReWOOPlan) :
    Option (List ReWOOPlan) :=
  (plans.foldlM (fun acc plan => addPlan plans fuel plan acc) ([], [])).map
    (fun a => a.1)

/-- `plan.status = s` applied to the shared plan objects, keyed by id. -/
def setStatus (plans : List ReWOOPlan) (planId : String) (s : PlanStatus) :
    List ReWOOPlan :=
  plans.map (fun p => if p.id == planId then { p with status := s } else p)

/-- `plan.result = r` applied to the shared plan objects, keyed by id. -/
def setResult (plans : List ReWOOPlan) (planId : String) (r : Option String) :
    List ReWOOPlan :=
  plans.map (fun p => if p.id == planId then { p with result := r } else p)

/-- `plan.error = e` applied to the shared plan objects, keyed by id. -/
def setError (plans : List ReWOOPlan) (planId : String) (e : Option String) :
    List ReWOOPlan :=
  plans.map (fun p => if p.id == planId then { p with error := e } else p)

/-- The `for` loop of `executeReWOOPlan` (lines 197-253): walk the sorted
plans; mark each `in_progress`, dispatch it (`outcome` gives each agent
call's result, keyed by plan id), then mark it `completed` and record the
result, or mark it `failed` and return the failure at once.  The first
component tracks `this.state.plans`; result entries are `(planId, data)`
pairs. -/
def execGo (outcome : String → AgentResult) :
    List ReWOOPlan → List ReWOOPlan → List (String × Option String) →
    List ReWOOPlan × Except String (List (String × Option String))
  | [], state, results => (state, .ok results)
  | plan :: rest, state, results =>
    let state1 := setStatus state plan.id .inProgress
    let r := outcome plan.id
    if r.success then
      let state2 := setResult (setStatus state1 plan.id .completed) plan.id r.data
      execGo outcome rest state2 (results ++ [(plan.id, r.data)])
    else
      let state2 := setError (setStatus state1 plan.id .failed) plan.id r.error
      (state2,
        .error ("Agent " ++ plan.agentId ++ " failed: " ++ r.error.getD "undefined"))

/-- `executeReWOOPlan` (lines 192-264): sort the plans by dependencies,
then run the execution loop.  `none` propagates a sort that exceeded its
recursion budget (the source would still be recursing inside
`sortPlansByDependencies`, so execution would never have begun). -/
def executeReWOOPlan (fuel : Nat) (outcome : String → AgentResult)
    (plans : List ReWOOPlan) :
    Option (List ReWOOPlan × Except String (List (String × Option String))) :=
  match sortPlansByDependencies fuel plans with
  | none => none
  | some sorted => some (execGo outcome sorted plans [])

/-- The plan validation of `createExecutionPlan` (lines 141-190): the
planning response's `plans` field is `none` when absent (JS falsy), and
any present array — including the empty one, which is truthy in JS — is
accepted and stored with every status reset to `pending`.  The error case
models the catch block's `Failed to create execution plan` result. -/
def createExecutionPlan (responsePlans : Option (List ReWOOPlan)) :
    Except String (List ReWOOPlan) :=
  match responsePlans with
  | some ps => .ok (ps.map (fun p => { p with status := PlanStatus.pending }))
  | none => .error "Failed to create execution plan"

/-- `getResultByType` (lines 424-426): the first plan of the given type
whose status is `completed`. -/
def getResultByType (plans : List ReWOOPlan) (t : String) : Option ReWOOPlan :=
  plans.find? (fun p => p.type == t && p.status == PlanStatus.completed)

/-- JS `x || null` on an optional string payload: an absent or empty
(falsy) string becomes `none`. -/
def orNull (r : Option String) : Option String :=
  match r with
  | some s => if s = "" then none else some s
  | none => none

/-- The final artifact built by `integrateResults` (lines 266-295): one
slot per task kind plus the metadata counters.  The prompt-derived
`project` block and the timestamp are omitted. -/
structure IntegratedResult where
  design : Option String
  code : Option String
  tests : Option String
  totalPlans : Nat
  successfulPlans : Nat
deriving DecidableEq, Repr

/-- `integrateResults` (lines 266-295) over the final plan states. -/
def integrateResults (plans : List ReWOOPlan) : IntegratedResult :=
  { design := orNull ((getResultByType plans "design").bind (fun p => p.result)),
    code := orNull ((getResultByType plans "code").bind (fun p => p.result)),
    tests := orNull ((getResultByType plans "test").bind (fun p => p.result)),
    totalPlans := plans.length,
    successfulPlans :=
      (plans.filter (fun p => p.status == PlanStatus.completed)).length }

/-- The observable outcome of one `buildApplication` run: the returned
`AgentResult`'s success flag, its `data` payload when integration ran,
and its error string otherwise. -/
structure BuildOutcome where
  success : Bool
  artifact : Option IntegratedResult
  error : Option String
deriving DecidableEq, Repr

/-- `buildApplication` (lines 117-139): planning, then execution, then —
only when every task succeeded — integration.  `none` propagates a
diverging dependency sort. -/
def buildApplication (fuel : Nat) (responsePlans : Option (List ReWOOPlan))
    (outcome : String → AgentResult) : Option BuildOutcome :=
  match createExecutionPlan responsePlans with
  | .error e => some { success := false, artifact := none, error := some e }
  | .ok plans =>
    match executeReWOOPlan fuel outcome plans with
    | none => none
    | some (_, .error e) =>
      some { success := false, artifact := none, error := some e }
    | some (finalPlans, .ok _) =>
      some { success := true, artifact := some (integrateResults finalPlans),
             error := none }

/-- The number of plans currently marked `in_progress`. -/
def inProgressCount (plans : List ReWOOPlan) : Nat :=
  (plans.filter (fun p => p.status == PlanStatus.inProgress)).length

/-- Task A of the two-task cycle scenario: A depends on B. -/
def planA : ReWOOPlan :=
  { id := "A", type := "design", agentId := "design-agent",
    dependencies := ["B"], status := .pending, result := none, error := none }

/-- Task B of the two-task cycle scenario: B depends on A. -/
def planB : ReWOOPlan :=
  { id := "B", type := "code", agentId := "code-agent",
    dependencies := ["A"], status := .pending, result := none, error := none }

/-- The cyclic task set of the cycle-rejection scenario. -/
def cyclePlans : List ReWOOPlan := [planA, planB]

/-- The grace period of the two-phase stop in `terminateSession`:
`setTimeout(..., 5000)`. -/
def graceMs : Nat := 5000

/-- Node `ChildProcess` state relevant to the shutdown path.
`killedFlag` models the `killed` property: it is set once `kill()` has
successfully sent a signal — it does not indicate that the process has
exited.  `exitsOnSigterm` is whether this child terminates when it
receives the graceful signal. -/
structure ChildProc where
  exited : Bool
  killedFlag : Bool
  exitsOnSigterm : Bool
deriving DecidableEq, Repr

/-- `subprocess.kill(sig)`: on an already-exited process the signal cannot
be delivered and `killed` stays unchanged; on a live process the signal is
sent, `killed` becomes true, and the process exits according to the
signal's effect (`SIGKILL` always ends it, `SIGTERM` only if the child
does not ignore it). -/
def ChildProc.kill (p : ChildProc) (sig : Sig) : ChildProc :=
  if p.exited then p
  else
    match sig with
    | .sigterm => { p with killedFlag := true, exited := p.exitsOnSigterm }
    | .sigkill => { p with killedFlag := true, exited := true }

/-- The two-phase stop of `terminateSession` (lines 304-312): send
`SIGTERM` at once; when the `graceMs` timer fires, send `SIGKILL` exactly
when `session.flutterProcess && !session.flutterProcess.killed`.  Returns
the process state after the grace period and whether the force-kill was
sent. -/
def stopProcess (p : ChildProc) : ChildProc × Bool :=
  let p1 := p.kill Sig.sigterm
  if !p1.killedFlag then (p1.kill Sig.sigkill, true) else (p1, false)

/-! Concrete states and scenarios used by the witnesses below. -/

/-- A live session holding port 8080. -/
def sessA : FlutterSession := ⟨0, 8080, true, 0, 0, SessionStatus.ready⟩

/-- A second live session holding port 8081. -/
def sessB : FlutterSession := ⟨1, 8081, true, 0, 0, SessionStatus.ready⟩

/-- A manager state with the two live sessions above. -/
def stTwo : SMState := ⟨[(0, sessA), (1, sessB)], [8080, 8081], 2⟩

/-- A manager state at the 50-session capacity limit. -/
def stFull : SMState :=
  ⟨(List.range 50).map (fun i => (i, ⟨i, 8080 + i, true, 0, 0, SessionStatus.ready⟩)),
    (List.range 50).map (fun i => 8080 + i), 50⟩

/-- A session whose status is not `ready` (an errored session that still
has a live process). -/
def sessNotReady : FlutterSession := ⟨0, 8080, true, 0, 0, SessionStatus.error⟩

/-- A manager state holding only the non-ready session. -/
def stNotReady : SMState := ⟨[(0, sessNotReady)], [8080], 1⟩

/-- A successful AI response carrying one generated file. -/
def aiOkResult : AiResult :=
  { code := "dart", files := [⟨"lib/main.dart", "dart"⟩], deps := [] }

/-- A ready session last active at time 0. -/
def sessTen : FlutterSession := ⟨0, 8080, true, 0, 0, SessionStatus.ready⟩

/-- A manager state holding only `sessTen`. -/
def stTen : SMState := ⟨[(0, sessTen)], [8080], 1⟩

/-- Task 1 of the three-task failure scenario. -/
def task1 : ReWOOPlan :=
  { id := "t1", type := "design", agentId := "design-agent",
    dependencies := [], status := .pending, result := none, error := none }

/-- Task 2 of the three-task failure scenario (depends on task 1). -/
def task2 : ReWOOPlan :=
  { id := "t2", type := "code", agentId := "code-agent",
    dependencies := ["t1"], status := .pending, result := none, error := none }

/-- Task 3 of the three-task failure scenario (depends on task 2). -/
def task3 : ReWOOPlan :=
  { id := "t3", type := "test", agentId := "testing-agent",
    dependencies := ["t2"], status := .pending, result := none, error := none }

/-- The three-task run of the failure scenario. -/
def threeTasks : List ReWOOPlan := [task1, task2, task3]

/-- Agent outcomes for the scenario: the second task fails, the rest
succeed. -/
def failSecond : String → AgentResult := fun planId =>
  if planId = "t2" then ⟨false, none, some "boom"⟩ else ⟨true, some "ok", none⟩

/-! Lemmas about the association-list map and the port set. -/

theorem mapGet_nil (k : Nat) : mapGet [] k = none := rfl

theorem mapGet_cons (e : Nat × FlutterSession) (m : List (Nat × FlutterSession))
    (k : Nat) : mapGet (e :: m) k = if e.1 = k then some e.2 else mapGet m k := by
  by_cases h : e.1 = k
  · rw [if_pos h]
    unfold mapGet
    rw [List.find?_cons_of_pos _ (by simpa using h)]
    rfl
  · rw [if_neg h]
    unfold mapGet
    rw [List.find?_cons_of_neg _ (by simpa using h)]

theorem mapGet_eq_none_of_fresh (m : List (Nat × FlutterSession)) (k : Nat)
    (h : ∀ e ∈ m, e.1 ≠ k) : mapGet m k = none := by
  induction m with
  | nil => rfl
  | cons e m ih =>
    rw [mapGet_cons, if_neg (h e (by simp))]
    exact ih (fun e' he' => h e' (by simp [he']))

theorem mapGet_mem (m : List (Nat × FlutterSession)) (k : Nat) (s : FlutterSession)
    (h : mapGet m k = some s) : (k, s) ∈ m := by
  induction m with
  | nil => simp [mapGet] at h
  | cons e m ih =>
    rw [mapGet_cons] at h
    by_cases hk : e.1 = k
    · rw [if_pos hk] at h
      exact List.mem_cons.mpr (Or.inl (by cases e; simp_all))
    · rw [if_neg hk] at h
      exact List.mem_cons_of_mem _ (ih h)

theorem mapSet_fresh (m : List (Nat × FlutterSession)) (k : Nat)
    (v : FlutterSession) (h : ∀ e ∈ m, e.1 ≠ k) : mapSet m k v = m ++ [(k, v)] := by
  have hany : m.any (fun e => e.1 == k) = false := by
    rw [List.any_eq_false]
    intro e he
    simpa using h e he
  unfold mapSet
  rw [if_neg (by simp [hany])]

theorem map_overwrite_fresh (m : List (Nat × FlutterSession)) (k : Nat)
    (v : FlutterSession) (h : ∀ e ∈ m, e.1 ≠ k) :
    m.map (fun e => if e.1 == k then (k, v) else e) = m := by
  induction m with
  | nil => rfl
  | cons e m ih =>
    rw [List.map_cons, if_neg (by simpa using h e (List.mem_cons_self _ _)),
      ih (fun e' he' => h e' (List.mem_cons_of_mem _ he'))]

theorem mapSet_append_self (m : List (Nat × FlutterSession)) (k : Nat)
    (v w : FlutterSession) (h : ∀ e ∈ m, e.1 ≠ k) :
    mapSet (m ++ [(k, w)]) k v = m ++ [(k, v)] := by
  unfold mapSet
  rw [if_pos (by rw [List.any_eq_true]; exact ⟨(k, w), by simp, by simp⟩),
    List.map_append, map_overwrite_fresh m k v h]
  congr 1
  simp

theorem mapGet_append_self (m : List (Nat × FlutterSession)) (k : Nat)
    (v : FlutterSession) (h : ∀ e ∈ m, e.1 ≠ k) :
    mapGet (m ++ [(k, v)]) k = some v := by
  induction m with
  | nil => simp [mapGet_cons]
  | cons e m ih =>
    rw [List.cons_append, mapGet_cons, if_neg (h e (by simp))]
    exact ih (fun e' he' => h e' (by simp [he']))

theorem mapDelete_append_self (m : List (Nat × FlutterSession)) (k : Nat)
    (v : FlutterSession) (h : ∀ e ∈ m, e.1 ≠ k) :
    mapDelete (m ++ [(k, v)]) k = m := by
  unfold mapDelete
  rw [List.filter_append]
  have h1 : m.filter (fun e => e.1 != k) = m := by
    apply List.filter_eq_self.mpr
    intro e he
    simpa using h e he
  have h2 : [((k : Nat), v)].filter (fun e => e.1 != k) = [] := by simp
  rw [h1, h2, List.append_nil]

theorem mapGet_mapDelete_self (m : List (Nat × FlutterSession)) (k : Nat) :
    mapGet (mapDelete m k) k = none := by
  apply mapGet_eq_none_of_fresh
  intro e he
  unfold mapDelete at he
  have := List.of_mem_filter he
  simpa using this

theorem mapGet_mapDelete_ne (m : List (Nat × FlutterSession)) (k k' : Nat)
    (h : k' ≠ k) : mapGet (mapDelete m k') k = mapGet m k := by
  induction m with
  | nil => rfl
  | cons e m ih =>
    by_cases hk : e.1 = k'
    · have : mapDelete (e :: m) k' = mapDelete m k' := by
        unfold mapDelete
        simp [List.filter_cons, hk]
      rw [this, ih, mapGet_cons, if_neg (by rw [hk]; exact h)]
    · have : mapDelete (e :: m) k' = e :: mapDelete m k' := by
        unfold mapDelete
        simp [List.filter_cons, hk]
      rw [this, mapGet_cons, mapGet_cons, ih]

theorem mapGet_map_overwrite (m : List (Nat × FlutterSession)) (k : Nat)
    (v : FlutterSession) (hany : m.any (fun e => e.1 == k) = true) :
    mapGet (m.map (fun e => if e.1 == k then (k, v) else e)) k = some v := by
  induction m with
  | nil => simp at hany
  | cons e m ih =>
    rw [List.map_cons]
    by_cases hk : e.1 = k
    · rw [if_pos (by simpa using hk), mapGet_cons, if_pos rfl]
    · rw [if_neg (by simpa using hk), mapGet_cons, if_neg hk]
      apply ih
      simp only [List.any_cons, Bool.or_eq_true] at hany
      rcases hany with h1 | h2
      · exact absurd (by simpa using h1) hk
      · exact h2

theorem mapGet_mapSet_self (m : List (Nat × FlutterSession)) (k : Nat)
    (v : FlutterSession) : mapGet (mapSet m k v) k = some v := by
  unfold mapSet
  by_cases hany : m.any (fun e => e.1 == k) = true
  · rw [if_pos hany]
    exact mapGet_map_overwrite m k v hany
  · rw [if_neg hany]
    apply mapGet_append_self
    intro e he hek
    exact hany (by rw [List.any_eq_true]; exact ⟨e, he, by simpa using hek⟩)

theorem mem_of_mem_mapSet (m : List (Nat × FlutterSession)) (k : Nat)
    (v : FlutterSession) (e' : Nat × FlutterSession)
    (hany : m.any (fun e => e.1 == k) = true) (h : e' ∈ mapSet m k v) :
    e' = (k, v) ∨ (e' ∈ m ∧ e'.1 ≠ k) := by
  unfold mapSet at h
  rw [if_pos hany] at h
  obtain ⟨e, he, heq⟩ := List.mem_map.mp h
  by_cases hk : e.1 = k
  · rw [if_pos (by simpa using hk)] at heq
    exact Or.inl heq.symm
  · rw [if_neg (by simpa using hk)] at heq
    exact Or.inr ⟨heq ▸ he, heq ▸ hk⟩

theorem mem_portDelete (used : List Nat) (p q : Nat) :
    q ∈ portDelete used p ↔ q ∈ used ∧ q ≠ p := by
  unfold portDelete
  simp [List.mem_filter]

theorem not_mem_portDelete_self (used : List Nat) (p : Nat) :
    p ∉ portDelete used p := by
  intro h
  exact ((mem_portDelete used p p).mp h).2 rfl

theorem portDelete_of_not_mem (used : List Nat) (p : Nat) (h : p ∉ used) :
    portDelete used p = used := by
  unfold portDelete
  apply List.filter_eq_self.mpr
  intro q hq
  simp only [bne_iff_ne, ne_eq, decide_eq_true_eq]
  intro hqp
  exact h (hqp ▸ hq)

theorem portAdd_of_not_mem (used : List Nat) (p : Nat) (h : p ∉ used) :
    portAdd used p = p :: used := by
  unfold portAdd
  rw [if_neg (by simpa using h)]

theorem portDelete_portAdd_self (used : List Nat) (p : Nat) (h : p ∉ used) :
    portDelete (portAdd used p) p = used := by
  rw [portAdd_of_not_mem used p h]
  have h1 : portDelete (p :: used) p = portDelete used p := by
    unfold portDelete
    rw [List.filter_cons_of_neg (by simp)]
  rw [h1, portDelete_of_not_mem used p h]

/-! The port scan returns the lowest free port of the range. -/

theorem portScan_spec (used : List Nat) :
    ∀ n start p, portScan used start n = some p →
      p ∉ used ∧ start ≤ p ∧ p < start + n ∧ ∀ q, start ≤ q → q < p → q ∈ used := by
  intro n
  induction n with
  | zero => intro start p h; simp [portScan] at h
  | succ n ih =>
    intro start p h
    unfold portScan at h
    by_cases hc : used.contains start
    · rw [if_pos hc] at h
      have hmem : start ∈ used := by simpa using hc
      obtain ⟨h1, h2, h3, h4⟩ := ih (start + 1) p h
      refine ⟨h1, by omega, by omega, ?_⟩
      intro q hq1 hq2
      rcases Nat.eq_or_lt_of_le hq1 with hq | hq
      · rw [← hq]; exact hmem
      · exact h4 q hq hq2
    · rw [if_neg hc] at h
      have hp : p = start := by injection h with h'; exact h'.symm
      subst hp
      refine ⟨by simpa using hc, Nat.le_refl _, by omega, ?_⟩
      intro q hq1 hq2
      omega

theorem getNextAvailablePort_spec (used : List Nat) (p : Nat)
    (h : getNextAvailablePort used = some p) :
    p ∉ used ∧ basePort ≤ p ∧ p < basePort + 1000 ∧
      ∀ q, basePort ≤ q → q < p → q ∈ used :=
  portScan_spec used 1000 basePort p h

/-! Closed-form equations for the three exits of `createSession`. -/

theorem createSession_capacity_eq (st : SMState) (now : Nat) (initOk : Bool)
    (ev : StartEvent) (hcap : st.sessions.length ≥ maxSessions) :
    createSession st now initOk ev = (.error .capacityExceeded, st, []) := by
  unfold createSession
  rw [if_pos hcap]

theorem createSession_ok_eq (st : SMState) (now : Nat) (ev : StartEvent)
    (port : Nat) (hcap : ¬ st.sessions.length ≥ maxSessions)
    (hport : getNextAvailablePort st.usedPorts = some port)
    (hfresh : ∀ e ∈ st.sessions, e.1 ≠ st.nextId)
    (hstart : startFlutterServer ev = .ok ()) :
    createSession st now true ev =
      (.ok { id := st.nextId, port := port, hasProcess := true,
             createdAt := now, lastActive := now, status := .ready },
       { sessions := st.sessions ++
           [(st.nextId, { id := st.nextId, port := port, hasProcess := true,
                          createdAt := now, lastActive := now, status := .ready })],
         usedPorts := portAdd st.usedPorts port,
         nextId := st.nextId + 1 }, []) := by
  have hcap2 : (st.sessions.length ≥ maxSessions) = False := eq_false hcap
  simp only [createSession, hcap2, if_false, hport, hstart, if_true]
  rw [mapSet_fresh _ _ _ hfresh,
    mapSet_append_self _ _ _ _ hfresh, mapSet_append_self _ _ _ _ hfresh]

theorem createSession_startFail_eq (st : SMState) (now : Nat) (ev : StartEvent)
    (port : Nat) (err : StartErr) (hcap : ¬ st.sessions.length ≥ maxSessions)
    (hport : getNextAvailablePort st.usedPorts = some port)
    (hfresh : ∀ e ∈ st.sessions, e.1 ≠ st.nextId)
    (hpnm : port ∉ st.usedPorts)
    (hstart : startFlutterServer ev = .error err) :
    createSession st now true ev =
      (.error .startError, { st with nextId := st.nextId + 1 }, [Sig.sigterm]) := by
  have hcap2 : (st.sessions.length ≥ maxSessions) = False := eq_false hcap
  simp only [createSession, hcap2, if_false, hport, hstart, if_true]
  rw [mapSet_fresh _ _ _ hfresh,
    mapSet_append_self _ _ _ _ hfresh, mapSet_append_self _ _ _ _ hfresh]
  simp only [terminateSession, mapGet_append_self _ _ _ hfresh,
    mapDelete_append_self _ _ _ hfresh, portDelete_portAdd_self _ _ hpnm]
  simp

theorem createSession_initFail_eq (st : SMState) (now : Nat) (ev : StartEvent)
    (port : Nat) (hcap : ¬ st.sessions.length ≥ maxSessions)
    (hport : getNextAvailablePort st.usedPorts = some port)
    (hfresh : ∀ e ∈ st.sessions, e.1 ≠ st.nextId)
    (hpnm : port ∉ st.usedPorts) :
    createSession st now false ev =
      (.error .initError, { st with nextId := st.nextId + 1 }, []) := by
  have hcap2 : (st.sessions.length ≥ maxSessions) = False := eq_false hcap
  simp only [createSession, hcap2, if_false, hport, Bool.false_eq_true]
  rw [mapSet_fresh _ _ _ hfresh, mapSet_append_self _ _ _ _ hfresh]
  simp only [terminateSession, mapGet_append_self _ _ _ hfresh,
    mapDelete_append_self _ _ _ hfresh, portDelete_portAdd_self _ _ hpnm]
  simp

/-! Preservation of the state invariant by the lifecycle operations. -/

theorem SMInv_initState : SMInv initState := by decide

theorem SMInv_bump (st : SMState) (h : SMInv st) :
    SMInv { st with nextId := st.nextId + 1 } :=
  ⟨h.1, h.2.1, h.2.2.1, h.2.2.2.1,
    fun e he => Nat.lt_succ_of_lt (h.2.2.2.2 e he)⟩

theorem terminateSession_inv (st : SMState) (sessionId : Nat) (h : SMInv st) :
    SMInv (terminateSession st sessionId).1 := by
  cases hm : mapGet st.sessions sessionId with
  | none => simpa [terminateSession, hm] using h
  | some s =>
    obtain ⟨hkeys, hsub, hports, hused, hid⟩ := h
    have hmem : (sessionId, s) ∈ st.sessions := mapGet_mem _ _ _ hm
    simp only [terminateSession, hm]
    refine ⟨?_, ?_, ?_, ?_, ?_⟩
    · exact hkeys.sublist ((List.filter_sublist _).map _)
    · intro e he
      have he' : e ∈ st.sessions := List.mem_of_mem_filter he
      have hkey : e.1 ≠ sessionId := by simpa using List.of_mem_filter he
      have hep : e.2.port ∈ st.usedPorts := hsub e he'
      have hne : e.2.port ≠ s.port := by
        intro hpp
        have heq : e = (sessionId, s) :=
          List.inj_on_of_nodup_map hports he' hmem hpp
        exact hkey (by rw [heq])
      exact (mem_portDelete _ _ _).mpr ⟨hep, hne⟩
    · exact hports.sublist ((List.filter_sublist _).map _)
    · exact hused.sublist (List.filter_sublist _)
    · intro e he
      exact hid e (List.mem_of_mem_filter he)

theorem SMInv_create_ok (st : SMState) (h : SMInv st) (port : Nat)
    (hpnm : port ∉ st.usedPorts) (s : FlutterSession) (hs : s.port = port) :
    SMInv ⟨st.sessions ++ [(st.nextId, s)], portAdd st.usedPorts port,
      st.nextId + 1⟩ := by
  obtain ⟨hkeys, hsub, hports, hused, hid⟩ := h
  rw [portAdd_of_not_mem _ _ hpnm]
  have hkeyfresh : ∀ a ∈ st.sessions.map (fun e => e.1), a ≠ st.nextId := by
    intro a ham
    obtain ⟨e, he, rfl⟩ := List.mem_map.mp ham
    exact Nat.ne_of_lt (hid e he)
  have hportfresh : ∀ a ∈ st.sessions.map (fun e => e.2.port), a ≠ port := by
    intro a ham
    obtain ⟨e, he, rfl⟩ := List.mem_map.mp ham
    intro hap
    exact hpnm (hap ▸ hsub e he)
  refine ⟨?_, ?_, ?_, ?_, ?_⟩
  · rw [List.map_append, List.nodup_append]
    refine ⟨hkeys, by simp, ?_⟩
    intro a ham hab
    simp only [List.map_cons, List.map_nil, List.mem_singleton] at hab
    exact hkeyfresh a ham hab
  · intro e he
    rcases List.mem_append.mp he with he' | he'
    · exact List.mem_cons_of_mem _ (hsub e he')
    · simp only [List.mem_singleton] at he'
      rw [he', hs]
      exact List.mem_cons_self _ _
  · show ((st.sessions ++ [(st.nextId, s)]).map (fun e => e.2.port)).Nodup
    rw [List.map_append, List.nodup_append]
    refine ⟨hports, by simp, ?_⟩
    intro a ham hab
    simp only [List.map_cons, List.map_nil, List.mem_singleton, hs] at hab
    exact hportfresh a ham hab
  · exact List.nodup_cons.mpr ⟨hpnm, hused⟩
  · intro e he
    rcases List.mem_append.mp he with he' | he'
    · exact Nat.lt_succ_of_lt (hid e he')
    · simp only [List.mem_singleton] at he'
      rw [he']
      exact Nat.lt_succ_self _

theorem createSession_inv (st : SMState) (now : Nat) (initOk : Bool)
    (ev : StartEvent) (h : SMInv st) :
    SMInv (createSession st now initOk ev).2.1 := by
  by_cases hcap : st.sessions.length ≥ maxSessions
  · rw [createSession_capacity_eq st now initOk ev hcap]
    exact h
  cases hport : getNextAvailablePort st.usedPorts with
  | none =>
    have : createSession st now initOk ev = (.error .portsExhausted, st, []) := by
      have hcap2 : (st.sessions.length ≥ maxSessions) = False := eq_false hcap
      simp only [createSession, hcap2, if_false, hport]
    rw [this]
    exact h
  | some port =>
    have hpnm : port ∉ st.usedPorts := (getNextAvailablePort_spec _ _ hport).1
    have hfresh : ∀ e ∈ st.sessions, e.1 ≠ st.nextId :=
      fun e he => Nat.ne_of_lt (h.2.2.2.2 e he)
    cases initOk with
    | false =>
      rw [createSession_initFail_eq st now ev port hcap hport hfresh hpnm]
      exact SMInv_bump st h
    | true =>
      cases hstart : startFlutterServer ev with
      | ok u =>
        cases u
        rw [createSession_ok_eq st now ev port hcap hport hfresh hstart]
        exact SMInv_create_ok st h port hpnm _ rfl
      | error err =>
        rw [createSession_startFail_eq st now ev port err hcap hport hfresh hpnm hstart]
        exact SMInv_bump st h

theorem applyOp_inv (st : SMState) (op : SMOp) (h : SMInv st) :
    SMInv (applyOp st op) := by
  cases op with
  | create now initOk ev => exact createSession_inv st now initOk ev h
  | terminate sessionId => exact terminateSession_inv st sessionId h

theorem foldl_applyOp_inv (ops : List SMOp) :
    ∀ st, SMInv st → SMInv (ops.foldl applyOp st) := by
  induction ops with
  | nil => intro st h; exact h
  | cons op ops ih => intro st h; exact ih _ (applyOp_inv st op h)

theorem run_inv (ops : List SMOp) : SMInv (run ops) :=
  foldl_applyOp_inv ops initState SMInv_initState

/-! Lemmas for the activity-timestamp bump and the idle sweep. -/

theorem any_of_mapGet_some (m : List (Nat × FlutterSession)) (k : Nat)
    (s : FlutterSession) (hm : mapGet m k = some s) :
    m.any (fun e => e.1 == k) = true := by
  rw [List.any_eq_true]
  exact ⟨(k, s), mapGet_mem _ _ _ hm, by simp⟩

theorem mapSet_key_unique (m : List (Nat × FlutterSession)) (k : Nat)
    (v s : FlutterSession) (hm : mapGet m k = some s) :
    ∀ e ∈ mapSet m k v, e.1 = k → e.2 = v := by
  intro e he hek
  rcases mem_of_mem_mapSet m k v e (any_of_mapGet_some m k s hm) he with h1 | h2
  · rw [h1]
  · exact absurd hek h2.2

theorem mapGet_terminate_ne (st : SMState) (tid k : Nat) (hne : tid ≠ k) :
    mapGet ((terminateSession st tid).1).sessions k = mapGet st.sessions k := by
  cases hm : mapGet st.sessions tid with
  | none => simp [terminateSession, hm]
  | some s =>
    simp only [terminateSession, hm]
    exact mapGet_mapDelete_ne _ _ _ hne

theorem mapGet_foldl_terminate (tids : List Nat) (k : Nat)
    (h : ∀ tid ∈ tids, tid ≠ k) :
    ∀ st : SMState,
      mapGet ((tids.foldl
        (fun acc sessionId => (terminateSession acc sessionId).1) st)).sessions k =
      mapGet st.sessions k := by
  induction tids with
  | nil => intro st; rfl
  | cons tid tids ih =>
    intro st
    rw [List.foldl_cons, ih (fun t ht => h t (List.mem_cons_of_mem _ ht)),
      mapGet_terminate_ne st tid k (h tid (List.mem_cons_self _ _))]

theorem cleanupSweep_keeps_fresh (st : SMState) (now : Nat) (k : Nat)
    (h : ∀ e ∈ st.sessions, e.1 = k →
      ¬ now - e.2.lastActive > inactiveThresholdMs) :
    mapGet (cleanupSweep st now).sessions k = mapGet st.sessions k := by
  unfold cleanupSweep
  apply mapGet_foldl_terminate
  intro tid htid
  obtain ⟨e, he, rfl⟩ := List.mem_map.mp htid
  have hest : e ∈ st.sessions := List.mem_of_mem_filter he
  have hstale := List.of_mem_filter he
  intro hek
  exact h e hest hek (by simpa using hstale)

/-! Lemmas for the cyclic dependency graph and the execution loop. -/

theorem addPlan_cycle_none (n : Nat) :
    addPlan cyclePlans n planA ([], []) = none ∧
    addPlan cyclePlans n planB ([], []) = none := by
  induction n with
  | zero => exact ⟨rfl, rfl⟩
  | succ n ih =>
    constructor
    · have h2 := ih.2
      simp only [cyclePlans, planA, planB] at h2
      simp [addPlan, cyclePlans, planA, planB, h2]
    · have h1 := ih.1
      simp only [cyclePlans, planA, planB] at h1
      simp [addPlan, cyclePlans, planA, planB, h1]

theorem sortPlans_cycle_none (n : Nat) :
    sortPlansByDependencies n cyclePlans = none := by
  unfold sortPlansByDependencies
  rw [show cyclePlans.foldlM
      (fun acc plan => addPlan cyclePlans n plan acc) ([], []) =
      (addPlan cyclePlans n planA ([], [])).bind
        (fun a => [planB].foldlM (fun acc plan => addPlan cyclePlans n plan acc) a)
    from rfl]
  rw [(addPlan_cycle_none n).1]
  rfl

theorem execGo_fail (outcome : String → AgentResult) :
    ∀ (sorted state : List ReWOOPlan) (results : List (String × Option String)),
      (∃ p ∈ sorted, (outcome p.id).success = false) →
      ∃ msg, (execGo outcome sorted state results).2 = .error msg := by
  intro sorted
  induction sorted with
  | nil =>
    intro state results h
    obtain ⟨p, hp, _⟩ := h
    simp at hp
  | cons plan rest ih =>
    intro state results h
    by_cases hs : (outcome plan.id).success = true
    · obtain ⟨p, hp, hfail⟩ := h
      rcases List.mem_cons.mp hp with hpe | hp'
      · rw [hpe, hs] at hfail
        cases hfail
      · have hstep : execGo outcome (plan :: rest) state results =
            execGo outcome rest
              (setResult (setStatus (setStatus state plan.id .inProgress)
                plan.id .completed) plan.id (outcome plan.id).data)
              (results ++ [(plan.id, (outcome plan.id).data)]) := by
          simp [execGo, hs]
        rw [hstep]
        exact ih _ _ ⟨p, hp', hfail⟩
    · have hsf : (outcome plan.id).success = false := by
        simpa using hs
      refine ⟨"Agent " ++ plan.agentId ++ " failed: " ++
        ((outcome plan.id).error.getD "undefined"), ?_⟩
      simp [execGo, hsf]

theorem terminateSession_unknown (st : SMState) (sessionId : Nat)
    (h : mapGet st.sessions sessionId = none) :
    terminateSession st sessionId = (st, []) := by
  simp [terminateSession, h]

/-! The claimed properties. -/

/-- C1: Port exclusivity.  Over every sequence of `createSession` /
`terminateSession` operations the live sessions' ports are pairwise
distinct; `getNextAvailablePort` returns the lowest port of the fixed
range `[basePort, basePort + 1000)` not currently held; and
`terminateSession` removes the terminated session's port from the
used-port set. -/
theorem C1_port_exclusivity :
    (∀ ops : List SMOp, (livePorts (run ops)).Nodup) ∧
    (∀ (used : List Nat) (p : Nat), getNextAvailablePort used = some p →
      p ∉ used ∧ basePort ≤ p ∧ p < basePort + 1000 ∧
      ∀ q, basePort ≤ q → q < p → q ∈ used) ∧
    (∀ (ops : List SMOp) (sessionId : Nat) (s : FlutterSession),
      mapGet (run ops).sessions sessionId = some s →
      s.port ∉ ((terminateSession (run ops) sessionId).1).usedPorts) := by
  refine ⟨?_, ?_, ?_⟩
  · intro ops
    exact (run_inv ops).2.2.1
  · intro used p h
    exact getNextAvailablePort_spec used p h
  · intro ops sessionId s hm
    simp only [terminateSession, hm]
    exact not_mem_portDelete_self _ _

/-- Witness for C1 at concrete inputs. -/
theorem C1_port_exclusivity_witness :
    (livePorts (run [SMOp.create 0 true (StartEvent.markerAt 0),
      SMOp.create 1 true (StartEvent.markerAt 0)])).Nodup ∧
    (8081 ∉ [8080] ∧ basePort ≤ 8081 ∧ 8081 < basePort + 1000 ∧
      ∀ q, basePort ≤ q → q < 8081 → q ∈ [8080]) ∧
    (⟨0, 8080, true, 5, 5, SessionStatus.ready⟩ : FlutterSession).port ∉
      ((terminateSession (run [SMOp.create 5 true (StartEvent.markerAt 0)]) 0).1).usedPorts :=
  ⟨C1_port_exclusivity.1 _,
   C1_port_exclusivity.2.1 [8080] 8081 (by decide),
   C1_port_exclusivity.2.2 [SMOp.create 5 true (StartEvent.markerAt 0)] 0
     ⟨0, 8080, true, 5, 5, SessionStatus.ready⟩ (by decide)⟩

/-- C2 counterexample: at a concrete failing startup (the readiness
marker never arrives, `ev = .silence`) the rollback throws and sends the
spawned process exactly one `SIGTERM`; but the kill sequence of
`terminateSession` (`stopProcess`, the `SIGTERM` plus the
`.killed`-guarded deferred force-kill) leaves a live child that ignores
`SIGTERM` un-exited, with no `SIGKILL` ever sent — so the claim's
conjunct that the spawned process is killed fails on the code. -/
theorem C2_kill_counterexample :
    (createSession initState 0 true StartEvent.silence).1 =
      .error CreateError.startError ∧
    (createSession initState 0 true StartEvent.silence).2.2 = [Sig.sigterm] ∧
    (stopProcess ⟨false, false, false⟩).1.exited = false ∧
    (stopProcess ⟨false, false, false⟩).2 = false := by decide

/-- C2 amended: Rollback atomicity of `createSession`.  When process
startup fails (in particular when the readiness marker never arrives
before the 120 s timeout, `ev = .silence`), `createSession` throws
`startError`, a `getSession` on the attempted id finds nothing, the
allocated port is not held, and the state is fully restored except for
the consumed uuid counter; the rollback's `terminateSession` sends the
spawned process the graceful `SIGTERM`, but the process ends up killed
only if it exits on that signal — the deferred force-kill never fires
for a live child (Node's `killed` flag is already set), so a
`SIGTERM`-ignoring child survives the rollback. -/
theorem C2_rollback_atomicity (st : SMState) (now : Nat) (ev : StartEvent)
    (port : Nat) (err : StartErr) (h : SMInv st)
    (hcap : ¬ st.sessions.length ≥ maxSessions)
    (hport : getNextAvailablePort st.usedPorts = some port)
    (hstart : startFlutterServer ev = .error err)
    (p : ChildProc) (hp : p.exited = false) :
    (createSession st now true ev).1 = .error .startError ∧
    (getSession (createSession st now true ev).2.1 st.nextId now).1 = none ∧
    port ∉ (createSession st now true ev).2.1.usedPorts ∧
    (createSession st now true ev).2.2 = [Sig.sigterm] ∧
    (createSession st now true ev).2.1 = { st with nextId := st.nextId + 1 } ∧
    ((stopProcess p).1.exited = p.exitsOnSigterm ∧ (stopProcess p).2 = false) := by
  have hpnm : port ∉ st.usedPorts := (getNextAvailablePort_spec _ _ hport).1
  have hfresh : ∀ e ∈ st.sessions, e.1 ≠ st.nextId :=
    fun e he => Nat.ne_of_lt (h.2.2.2.2 e he)
  rw [createSession_startFail_eq st now ev port err hcap hport hfresh hpnm hstart]
  have hnone : mapGet st.sessions st.nextId = none :=
    mapGet_eq_none_of_fresh _ _ hfresh
  refine ⟨rfl, by simp [getSession, hnone], hpnm, rfl, rfl, ?_, ?_⟩
  · simp [stopProcess, ChildProc.kill, hp]
  · simp [stopProcess, ChildProc.kill, hp]

/-- Witness for C2 (amended): the very first creation attempt against a
silent child times out and rolls back completely; the rollback's kill
sequence applied to a live child that does exit on `SIGTERM` ends it,
with no force-kill. -/
theorem C2_rollback_atomicity_witness :
    (createSession initState 0 true StartEvent.silence).1 =
      .error CreateError.startError ∧
    (getSession (createSession initState 0 true StartEvent.silence).2.1
      initState.nextId 0).1 = none ∧
    8080 ∉ (createSession initState 0 true StartEvent.silence).2.1.usedPorts ∧
    (createSession initState 0 true StartEvent.silence).2.2 = [Sig.sigterm] ∧
    (createSession initState 0 true StartEvent.silence).2.1 =
      { initState with nextId := initState.nextId + 1 } ∧
    ((stopProcess ⟨false, false, true⟩).1.exited =
        (⟨false, false, true⟩ : ChildProc).exitsOnSigterm ∧
      (stopProcess ⟨false, false, true⟩).2 = false) :=
  C2_rollback_atomicity initState 0 StartEvent.silence 8080 StartErr.timeout
    (by decide) (by decide) (by decide) (by decide) ⟨false, false, true⟩ (by decide)

/-- C4: Idempotent termination.  `terminateSession` on an unknown id is a
no-op (and its type is error-free, so it never throws), a second
termination of the same id is again a no-op, and terminating one session
never removes a port held by a different live session. -/
theorem C4_idempotent_termination :
    (∀ (st : SMState) (sessionId : Nat), mapGet st.sessions sessionId = none →
      terminateSession st sessionId = (st, [])) ∧
    (∀ (st : SMState) (sessionId : Nat),
      terminateSession (terminateSession st sessionId).1 sessionId =
        ((terminateSession st sessionId).1, [])) ∧
    (∀ (st : SMState) (sessionId k : Nat) (s : FlutterSession), SMInv st →
      k ≠ sessionId → mapGet st.sessions k = some s →
      s.port ∈ ((terminateSession st sessionId).1).usedPorts) := by
  refine ⟨?_, ?_, ?_⟩
  · intro st sessionId h
    exact terminateSession_unknown st sessionId h
  · intro st sessionId
    cases hm : mapGet st.sessions sessionId with
    | none =>
      rw [terminateSession_unknown st sessionId hm]
      exact terminateSession_unknown st sessionId hm
    | some s =>
      have h2 : mapGet ((terminateSession st sessionId).1).sessions sessionId =
          none := by
        simp only [terminateSession, hm]
        exact mapGet_mapDelete_self _ _
      exact terminateSession_unknown _ _ h2
  · intro st sessionId k s hinv hne hk
    cases hm : mapGet st.sessions sessionId with
    | none =>
      simp only [terminateSession, hm]
      exact hinv.2.1 (k, s) (mapGet_mem _ _ _ hk)
    | some t =>
      simp only [terminateSession, hm]
      have hks : (k, s) ∈ st.sessions := mapGet_mem _ _ _ hk
      have hts : (sessionId, t) ∈ st.sessions := mapGet_mem _ _ _ hm
      have hne2 : s.port ≠ t.port := by
        intro hpp
        have heq : ((k, s) : Nat × FlutterSession) = (sessionId, t) :=
          List.inj_on_of_nodup_map hinv.2.2.1 hks hts hpp
        exact hne (congrArg Prod.fst heq)
      exact (mem_portDelete _ _ _).mpr ⟨hinv.2.1 (k, s) hks, hne2⟩

/-- Witness for C4 on a concrete two-session state. -/
theorem C4_idempotent_termination_witness :
    terminateSession stTwo 7 = (stTwo, []) ∧
    terminateSession (terminateSession stTwo 0).1 0 =
      ((terminateSession stTwo 0).1, []) ∧
    sessB.port ∈ ((terminateSession stTwo 0).1).usedPorts :=
  ⟨C4_idempotent_termination.1 stTwo 7 (by decide),
   C4_idempotent_termination.2.1 stTwo 0,
   C4_idempotent_termination.2.2 stTwo 0 1 sessB (by decide) (by decide) (by decide)⟩

/-- C5: Capacity bound.  The configured maximum is 50, and a
`createSession` against a state at (or beyond) capacity throws
`capacityExceeded` and leaves the state — its session records and held
ports included — unchanged. -/
theorem C5_capacity_bound :
    maxSessions = 50 ∧
    ∀ (st : SMState) (now : Nat) (initOk : Bool) (ev : StartEvent),
      st.sessions.length ≥ maxSessions →
      createSession st now initOk ev = (.error .capacityExceeded, st, []) := by
  refine ⟨rfl, ?_⟩
  intro st now initOk ev hcap
  exact createSession_capacity_eq st now initOk ev hcap

/-- Witness for C5 on a state holding 50 live sessions. -/
theorem C5_capacity_bound_witness :
    stFull.sessions.length ≥ maxSessions ∧
    createSession stFull 3 true StartEvent.silence =
      (.error .capacityExceeded, stFull, []) :=
  ⟨by decide, C5_capacity_bound.2 stFull 3 true StartEvent.silence (by decide)⟩

/-- C3 counterexample: on the cyclic two-task set (A depends on B, B on
A) the dependency sort never returns: the `addPlan` recursion exhausts
every recursion-depth budget, so — contrary to the claim — no in-progress
marking ever detects the cycle, the traversal does not terminate, and no
`CycleError` is produced (none exists in the code). -/
theorem C3_cycle_counterexample :
    ¬ ∃ n, (sortPlansByDependencies n cyclePlans).isSome = true := by
  rintro ⟨n, h⟩
  rw [sortPlans_cycle_none n] at h
  simp at h

/-- C3 amended: `sortPlansByDependencies` has no cycle detection; on the
cyclic task set the recursive traversal never completes within any
recursion budget, so execution never begins — consequently no task ever
transitions to in-progress — but no `CycleError` is raised either. -/
theorem C3_cycle_divergence :
    (∀ n, sortPlansByDependencies n cyclePlans = none) ∧
    (∀ (n : Nat) (outcome : String → AgentResult),
      executeReWOOPlan n outcome cyclePlans = none) ∧
    inProgressCount cyclePlans = 0 := by
  refine ⟨sortPlans_cycle_none, ?_, rfl⟩
  intro n outcome
  unfold executeReWOOPlan
  rw [sortPlans_cycle_none n]

/-- C6: No partial artifact on task failure.  Whenever some task of the
(sorted) run fails, `buildApplication` returns a failed outcome that
carries no artifact: integration is never reached and the results of
tasks completed before the failure are discarded. -/
theorem C6_task_failure_no_partial_artifact (fuel : Nat)
    (responsePlans plans sorted : List ReWOOPlan)
    (outcome : String → AgentResult)
    (hplan : createExecutionPlan (some responsePlans) = .ok plans)
    (hsort : sortPlansByDependencies fuel plans = some sorted)
    (hfail : ∃ p ∈ sorted, (outcome p.id).success = false) :
    ∃ msg, buildApplication fuel (some responsePlans) outcome =
      some { success := false, artifact := none, error := some msg } := by
  obtain ⟨msg, hmsg⟩ := execGo_fail outcome sorted plans [] hfail
  refine ⟨msg, ?_⟩
  rcases hgo : execGo outcome sorted plans [] with ⟨fp, r⟩
  have hr : r = .error msg := by rw [hgo] at hmsg; exact hmsg
  subst hr
  have hexec : executeReWOOPlan fuel outcome plans = some (fp, .error msg) := by
    simp only [executeReWOOPlan, hsort, hgo]
  simp only [buildApplication, hplan, hexec]

/-- Witness for C6: a three-task run whose second task fails ends failed
with no artifact. -/
theorem C6_task_failure_witness :
    ∃ msg, buildApplication 3 (some threeTasks) failSecond =
      some { success := false, artifact := none, error := some msg } :=
  C6_task_failure_no_partial_artifact 3 threeTasks
    (threeTasks.map (fun p => { p with status := PlanStatus.pending }))
    (threeTasks.map (fun p => { p with status := PlanStatus.pending }))
    failSecond (by rfl) (by decide) (by decide)

/-- C7: Two-phase stop.  The claim fails on the code: the deferred
force-kill checks Node's `ChildProcess.killed` flag, which is already
true once the `SIGTERM` was successfully sent, so a live process that
ignores the graceful signal is never force-killed (first two conjuncts:
after the grace period it has not exited, yet no `SIGKILL` was sent).  A
process that exits on `SIGTERM` is indeed never force-killed (third
conjunct), while a process that was already dead at stop time — the one
case where `killed` stays false — gets the pointless `SIGKILL` attempt
(fourth conjunct). -/
theorem C7_two_phase_stop :
    (stopProcess ⟨false, false, false⟩).1.exited = false ∧
    (stopProcess ⟨false, false, false⟩).2 = false ∧
    (stopProcess ⟨false, false, true⟩).2 = false ∧
    (stopProcess ⟨true, false, false⟩).2 = true := by decide

/-- C8 counterexample: a session whose status is `error` (not `ready`) is
not rejected with any not-ready error — `updateSessionCode` proceeds,
succeeds, and bumps the session's `lastActive` timestamp (a side
effect). -/
theorem C8_not_ready_counterexample :
    sessNotReady.status ≠ SessionStatus.ready ∧
    (updateSessionCode stNotReady 0 99 (.ok aiOkResult)).1 = .ok aiOkResult.files ∧
    mapGet (updateSessionCode stNotReady 0 99 (.ok aiOkResult)).2.sessions 0 =
      some { sessNotReady with lastActive := 99 } := by decide

/-- C8 amended: `updateSessionCode` fails with `notFound` on an unknown
id, with no side effects; but it performs no readiness check at all — for
any existing session, regardless of status, the call proceeds past the
lookup and immediately bumps `lastActive` (a side effect), and `notFound`
is the only precondition error (`NotReady` does not exist in the code). -/
theorem C8_update_preconditions (st : SMState) (sessionId now : Nat)
    (ai : Except Unit AiResult) :
    (mapGet st.sessions sessionId = none →
      updateSessionCode st sessionId now ai = (.error .notFound, st)) ∧
    (∀ s, mapGet st.sessions sessionId = some s →
      (updateSessionCode st sessionId now ai).1 ≠ .error .notFound ∧
      (updateSessionCode st sessionId now ai).2.sessions =
        mapSet st.sessions sessionId { s with lastActive := now }) := by
  constructor
  · intro h
    simp [updateSessionCode, h]
  · intro s h
    constructor
    · simp only [updateSessionCode, h]
      cases ai with
      | error u => simp
      | ok r =>
        by_cases hp : s.hasProcess
        · simp [hp]
        · simp [hp]
    · simp only [updateSessionCode, h]
      cases ai with
      | error u => rfl
      | ok r =>
        by_cases hp : s.hasProcess
        · simp [hp]
        · simp [hp]

/-- Witness for C8 (amended): unknown id vs. the existing non-ready
session. -/
theorem C8_update_preconditions_witness :
    updateSessionCode initState 4 9 (.error ()) = (.error .notFound, initState) ∧
    ((updateSessionCode stNotReady 0 99 (.error ())).1 ≠ .error .notFound ∧
      (updateSessionCode stNotReady 0 99 (.error ())).2.sessions =
        mapSet stNotReady.sessions 0 { sessNotReady with lastActive := 99 }) :=
  ⟨(C8_update_preconditions initState 4 9 (.error ())).1 (by decide),
   (C8_update_preconditions stNotReady 0 99 (.error ())).2 sessNotReady (by decide)⟩

/-- C9 counterexample: a planning response whose `plans` field is the
empty array is accepted — `createExecutionPlan` succeeds with zero tasks
(the empty array is truthy in JS) and the whole run completes
successfully with an artifact whose slots are all null, contrary to the
claim that an empty plan is a planning failure. -/
theorem C9_empty_plan_counterexample :
    createExecutionPlan (some []) = .ok [] ∧
    buildApplication 1 (some []) (fun _ => ⟨true, none, none⟩) =
      some ⟨true, some ⟨none, none, none, 0, 0⟩, none⟩ :=
  ⟨rfl, by decide⟩

/-- C9 amended: planning fails only when the planning response carries no
`plans` array at all; any present array — the empty one included — is
accepted with statuses reset to pending, and with an empty plan the run
completes successfully as a silent no-op (all artifact slots null). -/
theorem C9_empty_plan_accepted :
    (∀ ps, createExecutionPlan (some ps) =
      .ok (ps.map (fun p => { p with status := PlanStatus.pending }))) ∧
    createExecutionPlan none = .error "Failed to create execution plan" ∧
    buildApplication 1 (some []) (fun _ => ⟨true, none, none⟩) =
      some ⟨true, some ⟨none, none, none, 0, 0⟩, none⟩ :=
  ⟨fun _ => rfl, rfl, by decide⟩

/-- C10: `getSession` is not a pure read — on an existing id it sets the
session's `lastActive` to the current time, both in its return value and
in the stored record, so a session polled at time `t` survives a cleanup
sweep at any time `t2` within the one-hour inactivity threshold of `t`. -/
theorem C10_getSession_bumps_activity (st : SMState) (sessionId t t2 : Nat)
    (s : FlutterSession) (h : mapGet st.sessions sessionId = some s)
    (hfresh : ¬ t2 - t > inactiveThresholdMs) :
    (getSession st sessionId t).1 = some { s with lastActive := t } ∧
    mapGet (getSession st sessionId t).2.sessions sessionId =
      some { s with lastActive := t } ∧
    mapGet (cleanupSweep (getSession st sessionId t).2 t2).sessions sessionId =
      some { s with lastActive := t } := by
  have h1 : (getSession st sessionId t).2 =
      { st with sessions :=
          mapSet st.sessions sessionId { s with lastActive := t } } := by
    simp [getSession, h]
  have h0 : (getSession st sessionId t).1 = some { s with lastActive := t } := by
    simp [getSession, h]
  have h2 : mapGet (mapSet st.sessions sessionId { s with lastActive := t })
      sessionId = some { s with lastActive := t } := mapGet_mapSet_self _ _ _
  refine ⟨h0, by rw [h1]; exact h2, ?_⟩
  rw [h1]
  have hcond : ∀ e ∈ mapSet st.sessions sessionId { s with lastActive := t },
      e.1 = sessionId → ¬ t2 - e.2.lastActive > inactiveThresholdMs := by
    intro e he hek
    have he2 : e.2 = { s with lastActive := t } :=
      mapSet_key_unique st.sessions sessionId _ s h e he hek
    rw [he2]
    exact hfresh
  rw [cleanupSweep_keeps_fresh _ t2 sessionId hcond]
  exact h2

/-- Witness for C10: the session polled at time 100 survives a sweep at
time 3600100 (exactly the threshold later). -/
theorem C10_getSession_bumps_activity_witness :
    (getSession stTen 0 100).1 = some { sessTen with lastActive := 100 } ∧
    mapGet (getSession stTen 0 100).2.sessions 0 =
      some { sessTen with lastActive := 100 } ∧
    mapGet (cleanupSweep (getSession stTen 0 100).2 3600100).sessions 0 =
      some { sessTen with lastActive := 100 } :=
  C10_getSession_bumps_activity stTen 0 100 3600100 sessTen (by decide) (by decide)
